import Mathlib

set_option linter.unusedVariables false

/-!
Verification of `clean_streamlit_app.py` (Carehealth1/Caresync).

The file shallowly embeds the session-state data model, the step-script
generator `simulate_processing_steps`, the fixture generators
`generate_individual_results` and `generate_population_results`, the
submission handler `process_query`, the submission guard and clear-results
handler from `main`, and the table cell-highlight rule `highlight_hba1c`.
Wall-clock reads (`datetime.now()`) are modelled by an explicit `now : String`
argument; the blocking `time.sleep(1.2)` pauses have no observable effect on
state and are not modelled; published progress fractions are collected into an
output list of rationals.
-/

namespace Caresync

/-- A process-step record as built by `simulate_processing_steps`:
name, description, data-point labels, and an illustrative command text. -/
structure Step where
  name : String
  description : String
  data_points : List String
  sql : String
deriving DecidableEq

/-- Embedding of `simulate_processing_steps(query_type, query_text)`
(src lines 83-169): the individual-patient script for tag
"Individual Patient", otherwise the population-health script. -/
def simulate_processing_steps (query_type : String) (query_text : String) :
    List Step :=
  if query_type = "Individual Patient" then
    [ { name := "Query Analysis",
        description := "LLM parsing clinical data requirements",
        data_points := ["Patient demographics", "Medical history", "Current symptoms", "Lab values", "Medications"],
        sql := "SELECT * FROM patients p JOIN medical_history mh ON p.id = mh.patient_id WHERE p.patient_id = \x27PT-789456\x27" },
      { name := "Schema Mapping",
        description := "Mapping clinical concepts to database tables",
        data_points := ["EHR_PATIENTS table", "LAB_RESULTS table", "MEDICATIONS table", "ENCOUNTERS table"],
        sql := "JOIN lab_results lr ON p.id = lr.patient_id AND lr.test_date >= DATE_SUB(NOW(), INTERVAL 90 DAY)" },
      { name := "Patient Demographics Query",
        description := "extract_patient_demographics(patient_id)",
        data_points := ["Name, Age, Gender", "Insurance Info", "Emergency Contacts", "Primary Care Physician"],
        sql := "SELECT name, age, gender, insurance_id FROM patients WHERE patient_id = \x27PT-789456\x27" },
      { name := "Medical History Extraction",
        description := "extract_medical_history(patient_id, years=5)",
        data_points := ["Chronic Conditions", "Previous Surgeries", "Allergies", "Family History"],
        sql := "SELECT diagnosis_code, diagnosis_date, severity FROM medical_history WHERE patient_id = \x27PT-789456\x27" },
      { name := "Lab Results Mining",
        description := "extract_lab_results(patient_id, recent=true)",
        data_points := ["CBC", "Comprehensive Metabolic Panel", "HbA1c", "Lipid Panel"],
        sql := "SELECT test_name, result_value, reference_range, test_date FROM lab_results WHERE patient_id = \x27PT-789456\x27 ORDER BY test_date DESC" },
      { name := "Data Synthesis & Analysis",
        description := "LLM processing extracted data for clinical insights",
        data_points := ["Trend Analysis", "Risk Stratification", "Care Gaps", "Clinical Correlations"],
        sql := "Complex aggregation queries across multiple tables for trend analysis" } ]
  else
    [ { name := "NLP Query Processing",
        description := "LLM interpreting population health criteria",
        data_points := ["Medical conditions", "Lab value ranges", "Time constraints", "Demographics", "Risk factors"],
        sql := "Parsed criteria: \"diabetic patients\", \"HbA1c > 8%\", \"last 6 months\"" },
      { name := "Population SQL Generation",
        description := "generate_population_query(criteria)",
        data_points := ["Patient cohort identification", "Clinical criteria mapping", "Date range filtering", "Exclusion criteria"],
        sql := "SELECT DISTINCT p.patient_id, p.name, p.age, p.gender, \n       lr.result_value as hba1c, lr.test_date\nFROM patients p \nJOIN medical_history mh ON p.id = mh.patient_id\nJOIN lab_results lr ON p.id = lr.patient_id\nWHERE mh.diagnosis_code IN (\x27E11.9\x27, \x27E11.40\x27, \x27E11.51\x27) -- Type 2 Diabetes codes\n  AND lr.test_name = \x27HbA1c\x27\n  AND lr.result_value > 8.0\n  AND lr.test_date >= DATE_SUB(NOW(), INTERVAL 6 MONTH)\n  AND p.active_status = 1" },
      { name := "Patient Cohort Retrieval",
        description := "execute_population_query(sql)",
        data_points := ["Cohort size: 342 patients", "Geographic distribution", "Age demographics", "Severity stratification"],
        sql := "Query executed across 125,000+ patient records in 2.1 seconds" },
      { name := "Statistical Analysis",
        description := "calculate_population_metrics(cohort)",
        data_points := ["Mean HbA1c", "Standard deviation", "Risk stratification", "Comorbidity analysis"],
        sql := "SELECT AVG(result_value), STDDEV(result_value), COUNT(*) FROM cohort_results GROUP BY risk_level" },
      { name := "CareHealth Integration",
        description := "format_for_carehealth_export(patient_list)",
        data_points := ["Patient identifiers", "Clinical priorities", "Contact information", "Care team assignments"],
        sql := "SELECT patient_id, name, phone, primary_care_provider, priority_score FROM cohort_final" } ]

/-- Patient identity block of an individual result. -/
structure PatientInfo where
  id : String
  name : String
  age : Nat
  gender : String
  last_update : String
deriving DecidableEq

/-- A clinical-flag record: severity tag, message, confidence percentage. -/
structure ClinicalFlag where
  type : String
  message : String
  confidence : Nat
deriving DecidableEq

/-- The data-quality score record (four percentages). -/
structure DataQuality where
  completeness : Nat
  accuracy : Nat
  timeliness : Nat
  consistency : Nat
deriving DecidableEq

/-- An individual-patient result record as built by
`generate_individual_results`; `data_categories` is the ordered mapping from
category name to field/value pairs. -/
structure IndividualResults where
  type : String
  patient_info : PatientInfo
  clinical_flags : List ClinicalFlag
  data_categories : List (String × List (String × String))
  data_quality : DataQuality
deriving DecidableEq

/-- Embedding of `generate_individual_results()` (src lines 171-244).
`datetime.now().strftime(...)` is modelled by the explicit `now` argument. -/
def generate_individual_results (now : String) : IndividualResults :=
  { type := "individual",
    patient_info :=
      { id := "PT-789456",
        name := "Maria Rodriguez",
        age := 45,
        gender := "Female",
        last_update := now },
    clinical_flags :=
      [ { type := "critical",
          message := "HbA1c above target - diabetes management needs optimization",
          confidence := 95 },
        { type := "warning",
          message := "Blood pressure trending upward - medication adjustment may be needed",
          confidence := 82 },
        { type := "info",
          message := "Patient due for annual eye exam and foot screening",
          confidence := 100 } ],
    data_categories :=
      [ ("Demographics & Insurance",
          [ ("Primary Insurance", "Blue Cross Blue Shield"),
            ("Emergency Contact", "Carlos Rodriguez (Spouse)"),
            ("Primary Care Provider", "Dr. Jennifer Smith, MD"),
            ("Preferred Language", "English"),
            ("Phone Number", "(555) 123-4567"),
            ("Address", "123 Main St, Springfield, IL 62701") ]),
        ("Medical History",
          [ ("Active Diagnoses", "Type 2 Diabetes Mellitus, Hypertension"),
            ("Chronic Conditions", "Diabetes (8 years), HTN (5 years)"),
            ("Known Allergies", "Penicillin (rash), Shellfish (anaphylaxis)"),
            ("Surgical History", "Cholecystectomy (2019)"),
            ("Family History", "Diabetes (mother), CAD (father)") ]),
        ("Laboratory Results",
          [ ("HbA1c", "8.2% (Target: <7.0%)"),
            ("Fasting Glucose", "165 mg/dL (High)"),
            ("Blood Pressure", "145/92 mmHg (Elevated)"),
            ("LDL Cholesterol", "145 mg/dL (Borderline High)"),
            ("Creatinine", "0.9 mg/dL (Normal)"),
            ("eGFR", ">60 mL/min/1.73m² (Normal)") ]),
        ("Current Medications",
          [ ("Metformin", "500mg BID (Started 2017)"),
            ("Lisinopril", "10mg Daily (Started 2020)"),
            ("Atorvastatin", "20mg Daily (Started 2021)"),
            ("Aspirin", "81mg Daily (Cardioprotective)"),
            ("Multivitamin", "1 tablet daily") ]),
        ("Vital Signs Trends",
          [ ("Weight", "178 lbs (↑5 lbs from 6 months ago)"),
            ("BMI", "29.2 (Overweight)"),
            ("Temperature", "98.6°F (Normal)"),
            ("Heart Rate", "78 bpm (Normal)"),
            ("Respiratory Rate", "16/min (Normal)") ]) ],
    data_quality :=
      { completeness := 87, accuracy := 94, timeliness := 76, consistency := 91 } }

/-- Cohort descriptor of a population result. -/
structure CohortInfo where
  name : String
  total_patients : Nat
  query_executed : String
  criteria : String
deriving DecidableEq

/-- Gender-distribution percentages. -/
structure GenderDistribution where
  male : ℚ
  female : ℚ
deriving DecidableEq

/-- Risk-distribution count triple. -/
structure RiskDistribution where
  high : Nat
  moderate : Nat
  low : Nat
deriving DecidableEq

/-- Population metrics block. -/
structure PopulationMetrics where
  average_age : ℚ
  gender_distribution : GenderDistribution
  average_hba1c : ℚ
  risk_distribution : RiskDistribution
deriving DecidableEq

/-- One row of the sample patient list. -/
structure PatientRow where
  id : String
  name : String
  age : Nat
  hba1c : ℚ
  last_visit : String
  priority : String
  provider : String
deriving DecidableEq

/-- A care-opportunity record. -/
structure CareOpportunity where
  type : String
  title : String
  description : String
  patient_count : Nat
  cost_savings : String
deriving DecidableEq

/-- A geographic-distribution record. -/
structure GeoRecord where
  region : String
  count : Nat
  percentage : ℚ
deriving DecidableEq

/-- The export-readiness record. -/
structure CarehealthExport where
  ready : Bool
  list_name : String
  patient_count : Nat
  export_format : String
  estimated_sync_time : String
deriving DecidableEq

/-- A population-health result record as built by
`generate_population_results`. -/
structure PopulationResults where
  type : String
  cohort_info : CohortInfo
  population_metrics : PopulationMetrics
  patient_list : List PatientRow
  care_opportunities : List CareOpportunity
  geographic_distribution : List GeoRecord
  carehealth_export : CarehealthExport
deriving DecidableEq

/-- Embedding of `generate_population_results()` (src lines 246-318).
`datetime.now().strftime(...)` is modelled by the explicit `now` argument. -/
def generate_population_results (now : String) : PopulationResults :=
  { type := "population",
    cohort_info :=
      { name := "Diabetic Patients with Elevated HbA1c",
        total_patients := 342,
        query_executed := now,
        criteria := "Type 2 Diabetes + HbA1c > 8% in last 6 months" },
    population_metrics :=
      { average_age := 58.3,
        gender_distribution := { male := 45.3, female := 54.7 },
        average_hba1c := 9.1,
        risk_distribution := { high := 89, moderate := 164, low := 89 } },
    patient_list :=
      [ { id := "PT-123456", name := "Sarah Johnson", age := 62, hba1c := 9.8, last_visit := "2025-07-15", priority := "High", provider := "Dr. Smith" },
        { id := "PT-789012", name := "Michael Chen", age := 55, hba1c := 8.9, last_visit := "2025-08-01", priority := "High", provider := "Dr. Johnson" },
        { id := "PT-345678", name := "Linda Garcia", age := 48, hba1c := 8.4, last_visit := "2025-07-28", priority := "Moderate", provider := "Dr. Williams" },
        { id := "PT-901234", name := "Robert Davis", age := 67, hba1c := 9.2, last_visit := "2025-06-30", priority := "High", provider := "Dr. Brown" },
        { id := "PT-567890", name := "Jennifer Wilson", age := 52, hba1c := 8.7, last_visit := "2025-08-05", priority := "Moderate", provider := "Dr. Taylor" },
        { id := "PT-234567", name := "David Kim", age := 59, hba1c := 9.5, last_visit := "2025-07-20", priority := "High", provider := "Dr. Anderson" },
        { id := "PT-876543", name := "Maria Santos", age := 44, hba1c := 8.3, last_visit := "2025-08-08", priority := "Moderate", provider := "Dr. Martinez" },
        { id := "PT-135792", name := "James Miller", age := 63, hba1c := 9.1, last_visit := "2025-07-10", priority := "High", provider := "Dr. Thompson" },
        { id := "PT-246810", name := "Susan Lee", age := 56, hba1c := 8.6, last_visit := "2025-07-25", priority := "Moderate", provider := "Dr. Garcia" },
        { id := "PT-369258", name := "John Anderson", age := 49, hba1c := 9.3, last_visit := "2025-08-02", priority := "High", provider := "Dr. Wilson" } ],
    care_opportunities :=
      [ { type := "critical",
          title := "89 High-Risk Patients Need Immediate Intervention",
          description := "HbA1c ≥ 9.0% requiring urgent medication adjustment or specialist referral",
          patient_count := 89,
          cost_savings := "$267,000/year" },
        { type := "warning",
          title := "164 Patients Approaching High Risk",
          description := "HbA1c 8.0-8.9% - preventive intervention recommended",
          patient_count := 164,
          cost_savings := "$328,000/year" },
        { type := "info",
          title := "Population Health Program Opportunity",
          description := "Coordinated diabetes management could improve outcomes for entire cohort",
          patient_count := 342,
          cost_savings := "$1.2M/year" } ],
    geographic_distribution :=
      [ { region := "Downtown", count := 89, percentage := 26.0 },
        { region := "Suburbs", count := 142, percentage := 41.5 },
        { region := "East Side", count := 67, percentage := 19.6 },
        { region := "West Side", count := 44, percentage := 12.9 } ],
    carehealth_export :=
      { ready := true,
        list_name := "Diabetes_HbA1c_High_Aug2025",
        patient_count := 342,
        export_format := "CareHealth Patient List",
        estimated_sync_time := "3 minutes" } }

/-- The results payload stored in session state. In the Python source it is a
dict carrying a `type` key of "individual" or "population"; the tagged union
makes the mutual exclusion of the two result kinds structural. -/
inductive Results where
  | individual (r : IndividualResults) : Results
  | population (r : PopulationResults) : Results
deriving DecidableEq

/-- The `type` tag string embedded in a result record. -/
def Results.resultType : Results → String
  | .individual r => r.type
  | .population r => r.type

/-- Session state: the four fields managed by `init_session_state`,
`process_query` and the two clear-results button handlers (src lines 73-81). -/
structure SessionState where
  processing : Bool
  results : Option Results
  process_steps : List Step
  query_type : Option String
deriving DecidableEq

/-- Embedding of `init_session_state()` (src lines 73-81): the initial values
installed when a field is absent from session state. -/
def init_session_state : SessionState :=
  { processing := false, results := none, process_steps := [], query_type := none }

/-- The step loop of `process_query` (src lines 338-342): for the step at
0-based index `i` out of `total`, publish progress fraction `(i+1)/total`,
then append the step to the session step list. Published fractions are
collected into the second component; `time.sleep(1.2)` has no state effect. -/
def stepLoop (total : Nat) : List Step → Nat → SessionState → SessionState × List ℚ
  | [], _, s => (s, [])
  | step :: rest, i, s =>
      let s' : SessionState := { s with process_steps := s.process_steps ++ [step] }
      let r := stepLoop total rest (i + 1) s'
      (r.1, (((i + 1 : Nat) : ℚ) / (total : ℚ)) :: r.2)

/-- Embedding of `process_query(query_type, query_text)` (src lines 320-351):
set the processing flag, clear steps and results, record the query type, run
the step loop, store the fixture result for the tag, clear the flag. Returns
the final session state and the list of published progress fractions. -/
def process_query (query_type : String) (query_text : String) (now : String)
    (s : SessionState) : SessionState × List ℚ :=
  let s1 : SessionState :=
    { s with processing := true, process_steps := [], results := none,
             query_type := some query_type }
  let steps := simulate_processing_steps query_type query_text
  let r := stepLoop steps.length steps 0 s1
  let res : Results :=
    if query_type = "Individual Patient" then
      Results.individual (generate_individual_results now)
    else
      Results.population (generate_population_results now)
  ({ r.1 with results := some res, processing := false }, r.2)

/-- Embedding of the clear-results button handlers in `main`
(src lines 614-618 and 673-677): reset the results holder and the step list. -/
def clear_results (s : SessionState) : SessionState :=
  { s with results := none, process_steps := [] }

/-- The placeholder entry of both sample-query select boxes. -/
def placeholderText : String := "Select a sample query..."

/-- The submission guard of `main` (src lines 607-612 and 666-671):
`query_text.strip()` truthy and text not equal to the placeholder. -/
def queryAccepted (query_text : String) : Bool :=
  query_text.trim ≠ "" && query_text ≠ placeholderText

/-- Embedding of the submit button handlers in `main` (src lines 607-612 and
666-671): when the guard passes, invoke `process_query`; otherwise emit a
warning (third component `true`) and leave state untouched. -/
def submit_query (query_type : String) (query_text : String) (now : String)
    (s : SessionState) : SessionState × List ℚ × Bool :=
  if queryAccepted query_text then
    let r := process_query query_type query_text now s
    (r.1, r.2, false)
  else
    (s, [], true)

/-- A table cell value: numeric (int or float in Python) or other. -/
inductive CellVal where
  | num (v : ℚ) : CellVal
  | str (s : String) : CellVal
deriving DecidableEq

/-- Embedding of `highlight_hba1c(val)` (src lines 460-466): the two-threshold
cell-highlight rule applied to the hba1c column. -/
def highlight_hba1c : CellVal → String
  | .num v =>
      if v ≥ 9.0 then "background-color: #fecaca"
      else if v ≥ 8.5 then "background-color: #fed7aa"
      else ""
  | .str _ => ""

/-- The "Query Type" metric of `display_process_flow` (src line 527):
`st.session_state.query_type or "N/A"`. -/
def display_query_type (s : SessionState) : String :=
  (s.query_type).getD "N/A"

/-- Replace the wall-clock timestamp embedded in a result record by `""`,
for stating timestamp-insensitivity. -/
def eraseResultTimestamp : Results → Results
  | .individual r =>
      .individual { r with patient_info := { r.patient_info with last_update := "" } }
  | .population r =>
      .population { r with cohort_info := { r.cohort_info with query_executed := "" } }

/-- Erase the timestamp inside the results field of a session state. -/
def eraseStateTimestamp (s : SessionState) : SessionState :=
  { s with results := s.results.map eraseResultTimestamp }

/-- The step loop appends the script to the step list in order and publishes
the fractions `(i+1)/total` in order. -/
lemma stepLoop_spec (total : Nat) (steps : List Step) :
    ∀ (i : Nat) (s : SessionState),
      stepLoop total steps i s =
        ({ s with process_steps := s.process_steps ++ steps },
         (List.range steps.length).map
           (fun j => ((i + j + 1 : Nat) : ℚ) / (total : ℚ))) := by
  induction steps with
  | nil => intro i s; simp [stepLoop]
  | cons step rest ih =>
      intro i s
      have hrange : (List.range (rest.length + 1)).map
            (fun j => ((i + j + 1 : Nat) : ℚ) / (total : ℚ)) =
          ((i + 1 : Nat) : ℚ) / (total : ℚ) ::
            (List.range rest.length).map
              (fun j => ((i + 1 + j + 1 : Nat) : ℚ) / (total : ℚ)) := by
        rw [List.range_succ_eq_map, List.map_cons, List.map_map]
        refine congrArg₂ List.cons (by norm_num) ?_
        refine List.map_congr_left fun j _ => ?_
        have : i + Nat.succ j + 1 = i + 1 + j + 1 := by omega
        simp [Function.comp, this]
      rw [List.length_cons, hrange]
      simp only [stepLoop, ih]
      refine Prod.ext ?_ rfl
      simp

/-- Closed form of `process_query`: the final session state does not depend on
the prior state, and the published fractions are `(j+1)/total` in order. -/
lemma process_query_spec (query_type query_text now : String) (s : SessionState) :
    process_query query_type query_text now s =
      ({ processing := false,
         results := some (if query_type = "Individual Patient" then
             Results.individual (generate_individual_results now)
           else
             Results.population (generate_population_results now)),
         process_steps := simulate_processing_steps query_type query_text,
         query_type := some query_type },
       (List.range (simulate_processing_steps query_type query_text).length).map
         (fun j => ((j + 1 : Nat) : ℚ) /
           ((simulate_processing_steps query_type query_text).length : ℚ))) := by
  simp only [process_query, stepLoop_spec]
  refine Prod.ext (by simp) (by simp)

/-- Text does not influence the generated step script. -/
lemma simulate_processing_steps_text_irrel (query_type t1 t2 : String) :
    simulate_processing_steps query_type t1 = simulate_processing_steps query_type t2 := rfl

/-- C1: for every non-empty query text and any query-type tag, `process_query`
terminates back in the Idle state (processing flag `false`) with exactly one
result present in session state, and that result carries type tag
"individual" when the tag is "Individual Patient" and "population" otherwise;
the tagged union `Results` makes it structural that at most one of the
individual/population results is present at a time. -/
theorem process_query_idle_one_result
    (query_type query_text now : String) (s : SessionState)
    (hne : query_text ≠ "") :
    (process_query query_type query_text now s).1.processing = false ∧
    ∃ r : Results,
      (process_query query_type query_text now s).1.results = some r ∧
      r.resultType =
        (if query_type = "Individual Patient" then "individual" else "population") := by
  rw [process_query_spec]
  refine ⟨rfl, ?_⟩
  by_cases h : query_type = "Individual Patient" <;>
    simp [h, Results.resultType, generate_individual_results, generate_population_results]

/-- Witness for C1 at a concrete non-empty query. -/
theorem process_query_idle_one_result_witness :
    ("show labs" : String) ≠ "" ∧
    ((process_query "Individual Patient" "show labs" "2025-08-08 12:00:00"
        init_session_state).1.processing = false ∧
     ∃ r : Results,
       (process_query "Individual Patient" "show labs" "2025-08-08 12:00:00"
          init_session_state).1.results = some r ∧
       r.resultType =
         (if ("Individual Patient" : String) = "Individual Patient" then "individual"
          else "population")) :=
  ⟨by decide,
   process_query_idle_one_result "Individual Patient" "show labs"
     "2025-08-08 12:00:00" init_session_state (by decide)⟩

/-- C2: the step generator returns a fixed ordered sequence depending only on
the tag — 6 steps for "Individual Patient", 5 for "Population Health" — the
output is independent of the query text, and any unrecognized tag falls back
to the population-health script. -/
theorem simulate_processing_steps_fixed (query_type t1 t2 : String) :
    simulate_processing_steps query_type t1 = simulate_processing_steps query_type t2 ∧
    (simulate_processing_steps "Individual Patient" t1).length = 6 ∧
    (simulate_processing_steps "Population Health" t1).length = 5 ∧
    (query_type ≠ "Individual Patient" →
      simulate_processing_steps query_type t1 =
        simulate_processing_steps "Population Health" t1) := by
  refine ⟨rfl, rfl, rfl, fun h => ?_⟩
  simp only [simulate_processing_steps, if_neg h]
  rw [if_neg (by decide : ¬ ("Population Health" : String) = "Individual Patient")]

/-- Witness for C2: an unrecognized tag yields the population-health script. -/
theorem simulate_processing_steps_fixed_witness :
    simulate_processing_steps "Cohort Review" "a" =
      simulate_processing_steps "Population Health" "a" :=
  (simulate_processing_steps_fixed "Cohort Review" "a" "b").2.2.2 (by decide)

/-- C3: submitting with whitespace-only query text or with text equal to the
placeholder "Select a sample query..." emits the warning, does not invoke the
submission handler, and leaves all four session-state fields unchanged. -/
theorem submit_query_rejects_empty_or_placeholder
    (query_type query_text now : String) (s : SessionState)
    (h : query_text.trim = "" ∨ query_text = placeholderText) :
    submit_query query_type query_text now s = (s, [], true) := by
  have hacc : queryAccepted query_text = false := by
    rcases h with h | h <;> simp [queryAccepted, h, placeholderText]
  simp [submit_query, hacc]

/-- Witness for C3 at the placeholder text. -/
theorem submit_query_rejects_empty_or_placeholder_witness :
    submit_query "Population Health" "Select a sample query..." "t"
        init_session_state =
      (init_session_state, [], true) :=
  submit_query_rejects_empty_or_placeholder "Population Health"
    "Select a sample query..." "t" init_session_state (Or.inr rfl)

/-- C4: after a completed submission with tag `t`, the session step list
equals the step script generated for `t` — 6 steps for "Individual Patient",
5 for "Population Health" — appended in script order, and the published
progress fractions are `(i+1)/total` for the 0-based step index `i`, in
order. -/
theorem process_query_step_list_and_progress
    (query_type query_text now : String) (s : SessionState) :
    (process_query query_type query_text now s).1.process_steps =
      simulate_processing_steps query_type query_text ∧
    (process_query query_type query_text now s).2 =
      (List.range (simulate_processing_steps query_type query_text).length).map
        (fun i => ((i + 1 : Nat) : ℚ) /
          ((simulate_processing_steps query_type query_text).length : ℚ)) ∧
    (simulate_processing_steps "Individual Patient" query_text).length = 6 ∧
    (simulate_processing_steps "Population Health" query_text).length = 5 := by
  rw [process_query_spec]
  exact ⟨rfl, rfl, rfl, rfl⟩

/-- C5: the cell-highlight rule classifies a numeric lab value into exactly
three tiers with inclusive lower bounds 9.0 and 8.5, and in particular 9.8 is
in the first tier, 8.7 in the second, and 8.3 unstyled. -/
theorem highlight_hba1c_tiers (v : ℚ) :
    (v ≥ 9.0 → highlight_hba1c (.num v) = "background-color: #fecaca") ∧
    (8.5 ≤ v → v < 9.0 → highlight_hba1c (.num v) = "background-color: #fed7aa") ∧
    (v < 8.5 → highlight_hba1c (.num v) = "") ∧
    highlight_hba1c (.num 9.8) = "background-color: #fecaca" ∧
    highlight_hba1c (.num 8.7) = "background-color: #fed7aa" ∧
    highlight_hba1c (.num 8.3) = "" := by
  refine ⟨fun h1 => ?_, fun h1 h2 => ?_, fun h1 => ?_, ?_, ?_, ?_⟩
  · simp only [highlight_hba1c, if_pos h1]
  · rw [highlight_hba1c, if_neg (not_le.mpr h2), if_pos h1]
  · rw [highlight_hba1c, if_neg (not_le.mpr (h1.trans (by norm_num))),
      if_neg (not_le.mpr h1)]
  · rw [highlight_hba1c, if_pos (by norm_num)]
  · rw [highlight_hba1c, if_neg (by norm_num), if_pos (by norm_num)]
  · rw [highlight_hba1c, if_neg (by norm_num), if_neg (by norm_num)]

/-- Witness for C5 at the three sample values from the spec. -/
theorem highlight_hba1c_tiers_witness :
    highlight_hba1c (.num 9.8) = "background-color: #fecaca" ∧
    highlight_hba1c (.num 8.7) = "background-color: #fed7aa" ∧
    highlight_hba1c (.num 8.3) = "" :=
  ⟨(highlight_hba1c_tiers 9.8).1 (by norm_num),
   (highlight_hba1c_tiers 8.7).2.1 (by norm_num) (by norm_num),
   (highlight_hba1c_tiers 8.3).2.2.1 (by norm_num)⟩

/-- C6: in every population result the three risk-distribution counts sum to
the stated total patient count: 89 + 164 + 89 = 342 = total_patients. -/
theorem risk_distribution_sums_to_total (now : String) :
    (generate_population_results now).population_metrics.risk_distribution.high +
      (generate_population_results now).population_metrics.risk_distribution.moderate +
      (generate_population_results now).population_metrics.risk_distribution.low =
      (generate_population_results now).cohort_info.total_patients ∧
    (generate_population_results now).cohort_info.total_patients = 342 :=
  ⟨rfl, rfl⟩

/-- C7: for every prior session state, clearing results sets the results
holder to `none` and the step list to `[]`. -/
theorem clear_results_resets (s : SessionState) :
    (clear_results s).results = none ∧ (clear_results s).process_steps = [] :=
  ⟨rfl, rfl⟩

/-- C8: two invocations of the submission handler with the same query-type
tag — from any prior states, with any query texts and any clock readings —
produce identical final session states once the embedded timestamp field is
erased, and publish identical progress sequences; the fixture generators are
deterministic in the tag and clock alone. -/
theorem process_query_deterministic_mod_timestamp
    (query_type t1 t2 n1 n2 : String) (s1 s2 : SessionState) :
    eraseStateTimestamp (process_query query_type t1 n1 s1).1 =
      eraseStateTimestamp (process_query query_type t2 n2 s2).1 ∧
    (process_query query_type t1 n1 s1).2 = (process_query query_type t2 n2 s2).2 := by
  rw [process_query_spec, process_query_spec]
  refine ⟨?_, rfl⟩
  by_cases h : query_type = "Individual Patient" <;>
    simp [h, eraseStateTimestamp, eraseResultTimestamp,
      generate_individual_results, generate_population_results,
      simulate_processing_steps_text_irrel query_type t1 t2]
  exact simulate_processing_steps_text_irrel _ t1 t2

/-- C9: the percentages of the four geographic-distribution records of a
population result sum to exactly 100 (26.0 + 41.5 + 19.6 + 12.9 = 100.0). -/
theorem geo_percentages_sum_100 (now : String) :
    (((generate_population_results now).geographic_distribution).map
      GeoRecord.percentage).sum = 100 := by
  norm_num [generate_population_results, GeoRecord.percentage,
    List.sum_cons, List.sum_nil]

/-- C10: clearing results leaves the query-type tag and the processing flag
unchanged, so the last-submitted tag persists and is what
`display_process_flow` would show as "Query Type". -/
theorem clear_results_frame (s : SessionState) :
    (clear_results s).query_type = s.query_type ∧
    (clear_results s).processing = s.processing ∧
    display_query_type (clear_results s) = display_query_type s :=
  ⟨rfl, rfl, rfl⟩

end Caresync
